import Mathlib

/-!
Verification of the Broadcast utility (Broadcast/Broadcast/Broadcast.cpp).

The program is a small UDP diagnostic tool: it parses a command line into a
run configuration, provisions a broadcast-capable UDP socket, and then runs
forever either as a broadcaster (sending an incrementing 32-bit counter every
5 seconds) or as a receiver (blocking on recvfrom and logging each datagram).

The development below is a shallow embedding of that source file.  C strings
are modelled as lists of characters (null-terminated array indexing is
modelled by charAt, which yields the NUL character past the end), machine
integers as Int or Nat with explicit reductions modulo 2 to the relevant
power where the code truncates, and each OS call as an explicit environment
outcome consumed by the step functions.
-/

/-! ## C string and numeric helpers -/

/-- Array indexing of a null-terminated C string: reading at or past the end
of the stored characters yields the NUL terminator.  Models expressions such
as argv[i][1] in Broadcast.cpp line 175. -/
def charAt (s : List Char) (i : Nat) : Char :=
  s.getD i (Char.ofNat 0)

/-- C isspace over the ASCII range: space, tab, newline, vertical tab,
form feed, carriage return.  Used by the strtol model. -/
def isSpaceC (c : Char) : Bool :=
  c = ' ' || c = '\t' || c = '\n' || c = '\r' || c.toNat = 11 || c.toNat = 12

/-- Decimal value of a digit string, most significant digit first. -/
def digitsToNat (ds : List Char) : Nat :=
  ds.foldl (fun n c => n * 10 + (c.toNat - 48)) 0

/-- Optional leading sign of a C number string: returns the negativity flag
and the remaining characters. -/
def dropSign : List Char → Bool × List Char
  | '-' :: r => (true, r)
  | '+' :: r => (false, r)
  | s => (false, s)

/-- Clamp to the range of a 32-bit long, the long type of the platform the
source targets.  strtol clamps out-of-range input to LONG_MAX or LONG_MIN. -/
def clampLong (v : Int) : Int :=
  if v > 2147483647 then 2147483647
  else if v < -2147483648 then -2147483648
  else v

/-- Signed magnitude of the leading digit run after the optional sign. -/
def signedVal (p : Bool × List Char) : Int :=
  if p.1 then -(Int.ofNat (digitsToNat (p.2.takeWhile Char.isDigit)))
  else Int.ofNat (digitsToNat (p.2.takeWhile Char.isDigit))

/-- Modelled from the spec and the C standard library contract: strtol with
base 10 (a platform call, not part of this repository) skips leading
whitespace, consumes an optional sign and a maximal run of decimal digits,
clamps to the long range, and yields 0 when no digits are present.
Used at Broadcast.cpp lines 181 and 187. -/
def strtol (s : List Char) : Int :=
  clampLong (signedVal (dropSign (s.dropWhile isSpaceC)))

/-- Split a character list on the dot separator. -/
def splitDots : List Char → List (List Char)
  | [] => [[]]
  | c :: rest =>
    let r := splitDots rest
    if c = '.' then [] :: r
    else
      match r with
      | [] => [[c]]
      | p :: ps => (c :: p) :: ps

/-- A decimal IPv4 component: a nonempty all-digit string with value at most
255. -/
def decOctet (p : List Char) : Option Nat :=
  if !p.isEmpty && p.all Char.isDigit && decide (digitsToNat p ≤ 255) then
    some (digitsToNat p)
  else none

/-- INADDR_BROADCAST, the all-ones IPv4 broadcast address. -/
def INADDR_BROADCAST : Nat := 4294967295

/-- INADDR_NONE, the value inet_addr returns on input it cannot parse. -/
def INADDR_NONE : Nat := 4294967295

/-- Modelled from the spec: inet_addr (a platform call, not part of this
repository) restricted to the decimal dotted-quad form the spec describes;
any other input yields INADDR_NONE.  The result is the 32-bit address value
with the first component in the most significant byte. -/
def inet_addr (s : List Char) : Nat :=
  match (splitDots s).map decOctet with
  | [some a, some b, some c, some d] => ((a * 256 + b) * 256 + c) * 256 + d
  | _ => INADDR_NONE

/-! ## Configuration Resolver (parseCommandLine, Broadcast.cpp lines 167-197) -/

/-- The run configuration assembled by main and parseCommandLine: port and
TTL are C ints, recv is the receiver-mode flag, addr the override broadcast
address buffer sOvrAddr. -/
structure Config where
  port : Int
  ttl : Int
  recv : Bool
  addr : List Char
deriving DecidableEq

/-- Observable output of the Configuration Resolver on standard output:
either the unknown-argument report (Broadcast.cpp lines 193-194, carrying
the offending character) or the usage text printed by displayUsage
(Broadcast.cpp lines 199-209). -/
inductive ParseEvent where
  | unknownFlag (c : Char)
  | usage
deriving DecidableEq

/-- The argument loop of parseCommandLine (Broadcast.cpp lines 173-196).
Each argument is dispatched on its character at index 1; case a copies the
rest of the argument into the address buffer (strcpy_s, modelled as a plain
copy, faithful for arguments shorter than the 256-byte buffer, which every
claim uses), cases p and t run strtol on the rest, case r sets receiver
mode, case question-mark prints usage, and the default case reports an
unknown argument.  The loop never fails. -/
def parseLoop : Config → List (List Char) → Config × List ParseEvent
  | cfg, [] => (cfg, [])
  | cfg, arg :: rest =>
    if charAt arg 1 = 'a' then parseLoop { cfg with addr := arg.drop 2 } rest
    else if charAt arg 1 = 'p' then
      parseLoop { cfg with port := strtol (arg.drop 2) } rest
    else if charAt arg 1 = 'r' then parseLoop { cfg with recv := true } rest
    else if charAt arg 1 = 't' then
      parseLoop { cfg with ttl := strtol (arg.drop 2) } rest
    else if charAt arg 1 = '?' then
      let res := parseLoop cfg rest
      (res.1, ParseEvent.usage :: res.2)
    else
      let res := parseLoop cfg rest
      (res.1, ParseEvent.unknownFlag (charAt arg 1) :: res.2)

/-- One-step equation of the argument loop on a nonempty argument list. -/
theorem parseLoop_cons (cfg : Config) (arg : List Char) (rest : List (List Char)) :
    parseLoop cfg (arg :: rest) =
      if charAt arg 1 = 'a' then parseLoop { cfg with addr := arg.drop 2 } rest
      else if charAt arg 1 = 'p' then
        parseLoop { cfg with port := strtol (arg.drop 2) } rest
      else if charAt arg 1 = 'r' then parseLoop { cfg with recv := true } rest
      else if charAt arg 1 = 't' then
        parseLoop { cfg with ttl := strtol (arg.drop 2) } rest
      else if charAt arg 1 = '?' then
        ((parseLoop cfg rest).1, ParseEvent.usage :: (parseLoop cfg rest).2)
      else
        ((parseLoop cfg rest).1,
          ParseEvent.unknownFlag (charAt arg 1) :: (parseLoop cfg rest).2) := rfl

/-- Defaults established by main before parsing (Broadcast.cpp lines 48-51):
port 40061, TTL 1, empty override address; parseCommandLine itself clears
the receiver flag (line 172). -/
def defaultConfig : Config :=
  { port := 40061, ttl := 1, recv := false, addr := [] }

/-- parseCommandLine as invoked from main (Broadcast.cpp line 53): the
argument list is argv[1..], the initial values are the defaults from main,
and the receiver flag starts cleared. -/
def parseCommandLine (args : List (List Char)) : Config × List ParseEvent :=
  parseLoop defaultConfig args

/-! ## Spec-side predicates for the RunConfiguration invariant -/

/-- Follows the words of the spec data model: a valid IPv4 dotted-quad
address is four dot-separated decimal components, each between 0 and 255. -/
def specValidIPv4 (s : List Char) : Bool :=
  match (splitDots s).map decOctet with
  | [some _, some _, some _, some _] => true
  | _ => false

/-- Follows the words of the spec invariant on RunConfiguration: the hop
limit is nonnegative, the port is an unsigned 16-bit value, and the
destination override, when present, parses as a valid IPv4 address. -/
def specConfigInvariant (c : Config) : Prop :=
  0 ≤ c.ttl ∧ 0 ≤ c.port ∧ c.port < 65536 ∧
    (c.addr ≠ [] → specValidIPv4 c.addr = true)

instance (c : Config) : Decidable (specConfigInvariant c) := by
  unfold specConfigInvariant
  infer_instance

/-! ## Broadcaster Loop (broadcast, Broadcast.cpp lines 97-122) -/

/-- The destination sockaddr_in assembled once before the loop: a 32-bit
IPv4 address value and a 16-bit port value. -/
structure SockAddrIn where
  addr : Nat
  port : Nat
deriving DecidableEq

/-- Destination resolution at Broadcast.cpp lines 102-107: when the override
buffer is nonempty (strlen greater than zero) the address is inet_addr of
the override, otherwise htonl(INADDR_BROADCAST); the port is htons of the
configured port, whose int-to-unsigned-short conversion reduces modulo
65536.  This runs once, before the loop, and takes no information about the
local interfaces. -/
def mkDest (cfg : Config) : SockAddrIn :=
  { addr := if 0 < cfg.addr.length then inet_addr cfg.addr else INADDR_BROADCAST
    port := (cfg.port % 65536).toNat }

/-- Observable actions of the broadcaster loop body: a sendto call carrying
the destination and the 32-bit counter value (Broadcast.cpp line 113), and
the Sleep suspension in milliseconds (line 120). -/
inductive LoopAct where
  | sendTo (dst : SockAddrIn) (value : Nat)
  | sleep (ms : Nat)
deriving DecidableEq

/-- The infinite for loop of broadcast (Broadcast.cpp lines 110-121), run
against a finite prefix of send outcomes (true when the sendto call
succeeds).  Each iteration attempts to send the current counter value; on
failure the process exits with status 1 (lines 114-117) without
incrementing; on success the counter is incremented — a 32-bit int, so the
stored value wraps modulo 2^32 — and the process sleeps 5000 milliseconds
before the next iteration.  The result is the list of actions performed and
the exit code when the process exited within the prefix (none while still
looping; the loop has no normal-return outcome because the for loop has no
break or return). -/
def runBroadcast (dst : SockAddrIn) : Nat → List Bool → List LoopAct × Option Nat
  | _, [] => ([], none)
  | c, ok :: rest =>
    if ok then
      let res := runBroadcast dst ((c + 1) % 4294967296) rest
      (LoopAct.sendTo dst (c % 4294967296) :: LoopAct.sleep 5000 :: res.1, res.2)
    else
      ([LoopAct.sendTo dst (c % 4294967296)], some 1)

/-- Entry into broadcast from main (Broadcast.cpp line 92): the destination
is resolved once from the configuration and the counter nValue starts at 0
(line 100). -/
def broadcastMain (cfg : Config) (env : List Bool) : List LoopAct × Option Nat :=
  runBroadcast (mkDest cfg) 0 env

/-! ## Receiver Loop (receive, Broadcast.cpp lines 124-147) -/

/-- An incoming UDP datagram: its payload bytes and the source address the
transport reports (IPv4 address and UDP port, the fields recvfrom stores
into the sockaddr_in out-parameter). -/
structure Datagram where
  payload : List Nat
  srcIp : Nat
  srcPort : Nat
deriving DecidableEq

/-- One iteration report of the receiver loop (Broadcast.cpp line 144): the
decoded counter value and the captured sender address. -/
structure RecvReport where
  value : Nat
  senderIp : Nat
  senderPort : Nat
deriving DecidableEq

/-- Outcome of one blocking recvfrom call: either a datagram is delivered or
the call fails with a negative result (the error branch at Broadcast.cpp
lines 136-141). -/
inductive RecvOutcome where
  | packet (d : Datagram)
  | failure (lastErr : Int)
deriving DecidableEq

/-- Little-endian decoding of the nValue buffer, the native in-memory
representation of the 32-bit counter on the targeted platform; the wire
payload carries no byte-order normalization. -/
def decodeLE (bs : List Nat) : Nat :=
  bs.foldr (fun b acc => b + 256 * acc) 0

/-- The infinite for loop of receive (Broadcast.cpp lines 132-146), run
against a finite prefix of recvfrom outcomes.  The buffer argument is the
4-byte nValue object, which persists across iterations.  Modelled from the
spec for the recvfrom call itself (a platform call, not part of this
repository): recvfrom reads only the fixed payload width — the first
min(length, 4) payload bytes overwrite the front of the buffer, any
additional bytes are silently discarded, and a shorter datagram leaves the
trailing buffer bytes untouched.  A nonnegative result takes the success
branch, which logs the decoded value and captured sender and loops again; a
failing call exits the process with status 1 (line 140). -/
def runReceive : List Nat → List RecvOutcome → List RecvReport × Option Nat
  | _, [] => ([], none)
  | buf, RecvOutcome.packet d :: rest =>
    let r := min d.payload.length 4
    let newBuf := d.payload.take r ++ buf.drop r
    let res := runReceive newBuf rest
    ({ value := decodeLE newBuf, senderIp := d.srcIp, senderPort := d.srcPort } :: res.1,
      res.2)
  | _, RecvOutcome.failure _ :: _ => ([], some 1)

/-- Entry into receive from main (Broadcast.cpp line 90): nValue is
initialized to 0 (line 126), so the buffer starts as four zero bytes. -/
def receiveMain (env : List RecvOutcome) : List RecvReport × Option Nat :=
  runReceive [0, 0, 0, 0] env

/-! ## Process Driver and Socket Provisioner (main, Broadcast.cpp lines 43-95) -/

/-- Results the environment supplies to the provisioning sequence: the
WSAStartup error code (nonzero means failure, Broadcast.cpp lines 220-226),
the results of the socket, both setsockopt and the bind calls (negative
means failure), and the errno perror would report. -/
structure SysEnv where
  wsaErr : Int
  socketRes : Int
  broadcastRes : Int
  ttlRes : Int
  bindRes : Int
  errno : Int
deriving DecidableEq

/-- The four provisioning steps of main in source order: socket (line 58),
setsockopt SO_BROADCAST (line 65), setsockopt IP_MULTICAST_TTL (line 71),
bind (line 83). -/
inductive ProvStep where
  | openSocket
  | setBroadcast
  | setTtl
  | bindSocket
deriving DecidableEq

/-- The perror message prefix reported when a provisioning step fails
(Broadcast.cpp lines 61, 67, 73, 85). -/
inductive ProvError where
  | settingUpSocket
  | settingBroadcast
  | settingTtl
  | bindingSocket
deriving DecidableEq

/-- The full provisioning sequence in source order. -/
def provStepsFull : List ProvStep :=
  [ProvStep.openSocket, ProvStep.setBroadcast, ProvStep.setTtl, ProvStep.bindSocket]

/-- Observable trace of one run of main: the provisioning steps performed,
the perror report (message prefix and the underlying system error number)
when a step failed, whether a loop was entered, and the exit code when the
process exited within the modelled prefix. -/
structure MainTrace where
  steps : List ProvStep
  reported : Option (ProvError × Int)
  loopEntered : Bool
  exit : Option Nat
deriving DecidableEq

/-- main (Broadcast.cpp lines 43-95): parse the command line, initialize
winsock (exit 1 on failure, line 56), then run the four provisioning steps,
each guarded by success of all earlier ones, exiting with status 1 and a
perror report at the first failure (lines 58-87); when all succeed,
dispatch on the receiver flag to exactly one of the two loops (lines
89-92).  The exit(0) at line 94 is reachable only if a loop returns, and
neither loop has a return path, so the dispatch branch exposes only the
exit code produced inside the loop. -/
def mainModel (args : List (List Char)) (e : SysEnv) (benv : List Bool)
    (renv : List RecvOutcome) : MainTrace :=
  let cfg := (parseCommandLine args).1
  if e.wsaErr ≠ 0 then
    { steps := [], reported := none, loopEntered := false, exit := some 1 }
  else if e.socketRes < 0 then
    { steps := [ProvStep.openSocket],
      reported := some (ProvError.settingUpSocket, e.errno),
      loopEntered := false, exit := some 1 }
  else if e.broadcastRes < 0 then
    { steps := [ProvStep.openSocket, ProvStep.setBroadcast],
      reported := some (ProvError.settingBroadcast, e.errno),
      loopEntered := false, exit := some 1 }
  else if e.ttlRes < 0 then
    { steps := [ProvStep.openSocket, ProvStep.setBroadcast, ProvStep.setTtl],
      reported := some (ProvError.settingTtl, e.errno),
      loopEntered := false, exit := some 1 }
  else if e.bindRes < 0 then
    { steps := provStepsFull,
      reported := some (ProvError.bindingSocket, e.errno),
      loopEntered := false, exit := some 1 }
  else
    { steps := provStepsFull, reported := none, loopEntered := true,
      exit := if cfg.recv then (receiveMain renv).2 else (broadcastMain cfg benv).2 }

/-! ## Helper lemmas -/

/-- Sends of the broadcaster loop along a run of successful iterations form
the arithmetic progression starting at the current counter, each followed by
the 5000 millisecond suspension, as long as the counter does not wrap. -/
theorem runBroadcast_replicate_true (dst : SockAddrIn) :
    ∀ (N c : Nat), c + N ≤ 4294967296 →
      (runBroadcast dst c (List.replicate N true)).1 =
        (List.range' c N).flatMap (fun i => [LoopAct.sendTo dst i, LoopAct.sleep 5000]) := by
  intro N
  induction N with
  | zero => intro c _; simp [runBroadcast]
  | succ n ih =>
    intro c h
    have hc : c % 4294967296 = c := Nat.mod_eq_of_lt (by omega)
    rw [List.replicate_succ]
    rcases Nat.lt_or_ge (c + 1) 4294967296 with h1 | h1
    · have h2 : (c + 1) % 4294967296 = c + 1 := Nat.mod_eq_of_lt h1
      simp only [runBroadcast, if_true, hc, h2, List.range'_succ, List.flatMap_cons]
      rw [ih (c + 1) (by omega)]
      simp
    · have hn : n = 0 := by omega
      subst hn
      simp [runBroadcast, hc, List.range'_succ]

/-- Every send the broadcaster loop performs carries the destination the
loop was given; the loop never builds another one. -/
theorem runBroadcast_sendTo_dst (dst : SockAddrIn) :
    ∀ (env : List Bool) (c : Nat) (d : SockAddrIn) (v : Nat),
      LoopAct.sendTo d v ∈ (runBroadcast dst c env).1 → d = dst := by
  intro env
  induction env with
  | nil => intro c d v hmem; simp [runBroadcast] at hmem
  | cons ok rest ih =>
    intro c d v hmem
    cases ok with
    | false =>
      simp [runBroadcast] at hmem
      exact hmem.1
    | true =>
      simp [runBroadcast] at hmem
      rcases hmem with ⟨hd, _⟩ | hmem
      · exact hd
      · exact ih _ _ _ hmem

/-! ## C1 -/

/-- C1: starting from counter value 0, a run of N consecutive successful
send iterations of the broadcaster loop sends exactly the values 0, 1, ...,
N-1 in that order (N at most 2^32, the capacity of the 32-bit counter,
beyond which the counter wraps as the spec allows), the counter advancing
only after each successful send, and each successful send is followed by
the fixed 5000 millisecond suspension before the next iteration. -/
theorem broadcaster_counter_sequence (cfg : Config) (N : Nat)
    (h : N ≤ 4294967296) :
    (broadcastMain cfg (List.replicate N true)).1 =
      (List.range N).flatMap
        (fun i => [LoopAct.sendTo (mkDest cfg) i, LoopAct.sleep 5000]) := by
  rw [List.range_eq_range']
  exact runBroadcast_replicate_true (mkDest cfg) N 0 (by omega)

/-- Witness for C1 at N equal to 3 with the default configuration. -/
theorem broadcaster_counter_sequence_witness :
    (broadcastMain defaultConfig (List.replicate 3 true)).1 =
      (List.range 3).flatMap
        (fun i => [LoopAct.sendTo (mkDest defaultConfig) i, LoopAct.sleep 5000]) :=
  broadcaster_counter_sequence defaultConfig 3 (by norm_num)

/-! ## C2 -/

/-- C2: every send the broadcaster loop ever performs uses the one
destination resolved before the loop started: when a destination override is
configured (nonempty override string) its address is inet_addr of that
literal string — a function of the string alone, independent of any local
interface configuration — and otherwise it is the all-ones broadcast
address INADDR_BROADCAST; and in every iteration the destination port is
the configured port (whenever that port is a valid unsigned 16-bit value). -/
theorem broadcaster_destination_resolved_once (cfg : Config) (env : List Bool)
    (d : SockAddrIn) (v : Nat)
    (hmem : LoopAct.sendTo d v ∈ (broadcastMain cfg env).1) :
    d = mkDest cfg
    ∧ (cfg.addr ≠ [] → d.addr = inet_addr cfg.addr)
    ∧ (cfg.addr = [] → d.addr = INADDR_BROADCAST)
    ∧ (0 ≤ cfg.port → cfg.port < 65536 → (d.port : Int) = cfg.port) := by
  have hd : d = mkDest cfg := runBroadcast_sendTo_dst (mkDest cfg) env 0 d v hmem
  subst hd
  refine ⟨rfl, ?_, ?_, ?_⟩
  · intro hne
    simp [mkDest, List.length_pos.mpr hne]
  · intro he
    simp [mkDest, he]
  · intro h0 h1
    have hm : cfg.port % 65536 = cfg.port := Int.emod_eq_of_lt h0 h1
    simp [mkDest, hm, Int.toNat_of_nonneg h0]

/-- Witness for C2: one successful iteration with the override address
192.168.50.255 sends to inet_addr of that literal string. -/
theorem broadcaster_destination_resolved_once_witness :
    (mkDest ⟨40061, 1, false,
        ['1','9','2','.','1','6','8','.','5','0','.','2','5','5']⟩).addr =
      inet_addr ['1','9','2','.','1','6','8','.','5','0','.','2','5','5'] :=
  (broadcaster_destination_resolved_once
    ⟨40061, 1, false, ['1','9','2','.','1','6','8','.','5','0','.','2','5','5']⟩
    [true]
    (mkDest ⟨40061, 1, false,
      ['1','9','2','.','1','6','8','.','5','0','.','2','5','5']⟩)
    0 (by decide)).2.1 (by decide)

/-! ## C3 -/

/-- C3: whenever a received datagram carries exactly the expected 4-byte
payload, the receiver loop reports the value decoded from that payload and
reports as sender exactly the source address of the packet, the pair of its
IPv4 address and UDP port. -/
theorem receiver_reports_value_and_sender (buf : List Nat) (d : Datagram)
    (rest : List RecvOutcome) (hb : buf.length = 4) (hp : d.payload.length = 4) :
    (runReceive buf (RecvOutcome.packet d :: rest)).1.head? =
      some (RecvReport.mk (decodeLE d.payload) d.srcIp d.srcPort) := by
  have hr : min d.payload.length 4 = 4 := by omega
  have ht : d.payload.take 4 = d.payload := List.take_of_length_le (by omega)
  have hd : buf.drop 4 = [] := List.drop_eq_nil_of_le (by omega)
  simp [runReceive, hr, ht, hd]

/-- Witness for C3 on a concrete 4-byte datagram. -/
theorem receiver_reports_value_and_sender_witness :
    (runReceive [0, 0, 0, 0] [RecvOutcome.packet ⟨[9, 0, 0, 0], 167772161, 40061⟩]).1.head? =
      some (RecvReport.mk (decodeLE [9, 0, 0, 0]) 167772161 40061) :=
  receiver_reports_value_and_sender [0, 0, 0, 0] ⟨[9, 0, 0, 0], 167772161, 40061⟩ []
    rfl rfl

/-! ## C6 -/

/-- C6: on a datagram longer than the 4-byte payload width the receiver
loop reads only the first four bytes, silently discards the rest, reports
the value decoded from those four bytes and keeps looping; on a datagram
shorter than that width the packet is accepted as-is — only its bytes
overwrite the front of the value buffer, the trailing bytes of the reported
value being whatever the buffer previously held — and the loop likewise
continues. -/
theorem receiver_truncation_behavior (buf : List Nat) (d : Datagram)
    (rest : List RecvOutcome) (hb : buf.length = 4) :
    (4 < d.payload.length →
      runReceive buf (RecvOutcome.packet d :: rest) =
        (RecvReport.mk (decodeLE (d.payload.take 4)) d.srcIp d.srcPort
            :: (runReceive (d.payload.take 4) rest).1,
          (runReceive (d.payload.take 4) rest).2))
    ∧ (d.payload.length < 4 →
      runReceive buf (RecvOutcome.packet d :: rest) =
        (RecvReport.mk (decodeLE (d.payload ++ buf.drop d.payload.length))
              d.srcIp d.srcPort
            :: (runReceive (d.payload ++ buf.drop d.payload.length) rest).1,
          (runReceive (d.payload ++ buf.drop d.payload.length) rest).2)) := by
  constructor
  · intro h
    have hr : min d.payload.length 4 = 4 := by omega
    have hd : buf.drop 4 = [] := List.drop_eq_nil_of_le (by omega)
    simp [runReceive, hr, hd]
  · intro h
    have hr : min d.payload.length 4 = d.payload.length := by omega
    simp [runReceive, hr, List.take_length]

/-- Witness for C6 on a concrete 6-byte datagram: only the first four bytes
are decoded and the loop does not exit. -/
theorem receiver_truncation_behavior_witness :
    runReceive [0, 0, 0, 0] [RecvOutcome.packet ⟨[1, 2, 3, 4, 5, 6], 5, 7⟩] =
      (RecvReport.mk (decodeLE ([1, 2, 3, 4, 5, 6].take 4)) 5 7
          :: (runReceive ([1, 2, 3, 4, 5, 6].take 4) []).1,
        (runReceive ([1, 2, 3, 4, 5, 6].take 4) []).2) :=
  (receiver_truncation_behavior [0, 0, 0, 0] ⟨[1, 2, 3, 4, 5, 6], 5, 7⟩ [] rfl).1
    (by decide)

/-! ## C4 -/

/-- C4: socket provisioning runs its four steps in source order — open the
datagram socket, enable broadcast, set the multicast TTL, bind to the
wildcard address and configured port — each step only after all earlier
ones succeeded; the first failing step stops the sequence, reports the
underlying system error under the message naming that step, and the process
exits with status 1 with neither loop entered; when all four succeed the
full sequence ran and a loop is entered. -/
theorem socket_provisioning_steps (args : List (List Char)) (e : SysEnv)
    (benv : List Bool) (renv : List RecvOutcome) :
    (e.wsaErr = 0 → e.socketRes < 0 →
      mainModel args e benv renv =
        { steps := [ProvStep.openSocket],
          reported := some (ProvError.settingUpSocket, e.errno),
          loopEntered := false, exit := some 1 })
    ∧ (e.wsaErr = 0 → 0 ≤ e.socketRes → e.broadcastRes < 0 →
      mainModel args e benv renv =
        { steps := [ProvStep.openSocket, ProvStep.setBroadcast],
          reported := some (ProvError.settingBroadcast, e.errno),
          loopEntered := false, exit := some 1 })
    ∧ (e.wsaErr = 0 → 0 ≤ e.socketRes → 0 ≤ e.broadcastRes → e.ttlRes < 0 →
      mainModel args e benv renv =
        { steps := [ProvStep.openSocket, ProvStep.setBroadcast, ProvStep.setTtl],
          reported := some (ProvError.settingTtl, e.errno),
          loopEntered := false, exit := some 1 })
    ∧ (e.wsaErr = 0 → 0 ≤ e.socketRes → 0 ≤ e.broadcastRes → 0 ≤ e.ttlRes →
        e.bindRes < 0 →
      mainModel args e benv renv =
        { steps := provStepsFull,
          reported := some (ProvError.bindingSocket, e.errno),
          loopEntered := false, exit := some 1 })
    ∧ (e.wsaErr = 0 → 0 ≤ e.socketRes → 0 ≤ e.broadcastRes → 0 ≤ e.ttlRes →
        0 ≤ e.bindRes →
      (mainModel args e benv renv).steps = provStepsFull
      ∧ (mainModel args e benv renv).reported = none
      ∧ (mainModel args e benv renv).loopEntered = true) := by
  refine ⟨?_, ?_, ?_, ?_, ?_⟩
  · intro h0 h1
    simp [mainModel, h0, h1]
  · intro h0 h1 h2
    simp [mainModel, h0, not_lt.mpr h1, h2]
  · intro h0 h1 h2 h3
    simp [mainModel, h0, not_lt.mpr h1, not_lt.mpr h2, h3]
  · intro h0 h1 h2 h3 h4
    simp [mainModel, h0, not_lt.mpr h1, not_lt.mpr h2, not_lt.mpr h3, h4]
  · intro h0 h1 h2 h3 h4
    refine ⟨?_, ?_, ?_⟩ <;>
      simp [mainModel, h0, not_lt.mpr h1, not_lt.mpr h2, not_lt.mpr h3, not_lt.mpr h4]

/-- Witness for C4: a TTL-step failure stops provisioning after three steps
and exits with status 1 before any loop. -/
theorem socket_provisioning_steps_witness :
    mainModel [] ⟨0, 0, 0, -1, 0, 10048⟩ [] [] =
      { steps := [ProvStep.openSocket, ProvStep.setBroadcast, ProvStep.setTtl],
        reported := some (ProvError.settingTtl, 10048),
        loopEntered := false, exit := some 1 } :=
  (socket_provisioning_steps [] ⟨0, 0, 0, -1, 0, 10048⟩ [] []).2.2.1 rfl
    (by decide) (by decide) (by decide)

/-! ## C5 -/

/-- Counterexample to C5: the argument -t-5 yields a configuration whose
hop limit is -5, violating the invariant that the hop limit be
nonnegative. -/
theorem config_invariant_fails_on_negative_hop_limit :
    (parseCommandLine [['-', 't', '-', '5']]).1.ttl = -5
    ∧ ¬ specConfigInvariant (parseCommandLine [['-', 't', '-', '5']]).1 := by
  decide

/-- Fields other than the receiver flag are preserved by the parse loop
when no argument selects the address, port, or TTL case. -/
theorem parseLoop_preserves_numeric_fields :
    ∀ (args : List (List Char)) (cfg : Config),
      (∀ a ∈ args, charAt a 1 ≠ 'a' ∧ charAt a 1 ≠ 'p' ∧ charAt a 1 ≠ 't') →
      (parseLoop cfg args).1.ttl = cfg.ttl ∧ (parseLoop cfg args).1.port = cfg.port
        ∧ (parseLoop cfg args).1.addr = cfg.addr := by
  intro args
  induction args with
  | nil => intro cfg _; simp [parseLoop]
  | cons a rest ih =>
    intro cfg h
    obtain ⟨ha, hp, ht⟩ := h a (List.mem_cons_self a rest)
    have hrest := fun b hb => h b (List.mem_cons_of_mem a hb)
    rw [parseLoop_cons, if_neg ha, if_neg hp]
    by_cases hr : charAt a 1 = 'r'
    · rw [if_pos hr]
      exact ih { cfg with recv := true } hrest
    · rw [if_neg hr, if_neg ht]
      by_cases hqm : charAt a 1 = '?'
      · rw [if_pos hqm]
        exact ih cfg hrest
      · rw [if_neg hqm]
        exact ih cfg hrest

/-- C5 amended: the Configuration Resolver validates nothing, so the
RunConfiguration invariant can fail — the hop limit and port take whatever
value strtol yields, possibly negative or beyond the 16-bit port range, and
the destination override is stored verbatim without IPv4 validation; the
invariant does hold for every argument list containing no address, port, or
TTL override, since the defaults satisfy it. -/
theorem config_invariant_without_override_flags (args : List (List Char))
    (h : ∀ a ∈ args, charAt a 1 ≠ 'a' ∧ charAt a 1 ≠ 'p' ∧ charAt a 1 ≠ 't') :
    specConfigInvariant (parseCommandLine args).1 := by
  obtain ⟨ht, hp, ha⟩ := parseLoop_preserves_numeric_fields args defaultConfig h
  unfold parseCommandLine at *
  refine ⟨?_, ?_, ?_, ?_⟩
  · rw [ht]; decide
  · rw [hp]; decide
  · rw [hp]; decide
  · intro hne
    rw [ha] at hne
    exact absurd rfl hne

/-- Witness for the amended C5 on the argument list containing only -r. -/
theorem config_invariant_without_override_flags_witness :
    specConfigInvariant (parseCommandLine [['-', 'r']]).1 :=
  config_invariant_without_override_flags [['-', 'r']] (by decide)

/-! ## C7 -/

/-- Counterexample to C7: the argument -p70000 produces port 70000 — a
value outside the valid UDP port range that is stored as-is rather than
degrading to zero. -/
theorem port_out_of_range_not_zero :
    (parseCommandLine [['-', 'p', '7', '0', '0', '0', '0']]).1.port = 70000
    ∧ (parseCommandLine [['-', 'p', '7', '0', '0', '0', '0']]).1.port ≠ 0
    ∧ ¬ (parseCommandLine [['-', 'p', '7', '0', '0', '0', '0']]).1.port < 65536 := by
  decide

/-- C7 amended: the parse never fails or rejects, but only non-numeric
override text degrades to zero; out-of-range numeric text does not — text
beyond the 32-bit long range clamps to LONG_MAX or LONG_MIN, and a numeric
value merely outside the valid port range is stored unchanged. -/
theorem numeric_overrides_coercion (s : List Char)
    (h : (dropSign (s.dropWhile isSpaceC)).2.takeWhile Char.isDigit = []) :
    strtol s = 0
    ∧ strtol ['9', '9', '9', '9', '9', '9', '9', '9', '9', '9', '9'] = 2147483647
    ∧ strtol ['-', '9', '9', '9', '9', '9', '9', '9', '9', '9', '9', '9'] = -2147483648
    ∧ (parseCommandLine [['-', 'p', '7', '0', '0', '0', '0']]).1.port = 70000 := by
  refine ⟨?_, by decide, by decide, by decide⟩
  unfold strtol signedVal
  rw [h]
  cases hsign : (dropSign (s.dropWhile isSpaceC)).1 <;>
    simp [digitsToNat, clampLong]

/-- Witness for the amended C7 on the non-numeric override text xy. -/
theorem numeric_overrides_coercion_witness :
    strtol ['x', 'y'] = 0
    ∧ strtol ['9', '9', '9', '9', '9', '9', '9', '9', '9', '9', '9'] = 2147483647
    ∧ strtol ['-', '9', '9', '9', '9', '9', '9', '9', '9', '9', '9', '9'] = -2147483648
    ∧ (parseCommandLine [['-', 'p', '7', '0', '0', '0', '0']]).1.port = 70000 :=
  numeric_overrides_coercion ['x', 'y'] (by decide)

/-! ## C8 -/

/-- Counterexample to C8: a help request does not short-circuit parsing —
after -? the resolver keeps processing the remaining arguments, so a
following -r still switches the run into receiver mode, which a
short-circuited parse would have left untouched. -/
theorem help_request_does_not_shortcircuit :
    (parseCommandLine [['-', '?'], ['-', 'r']]).1.recv = true
    ∧ (parseCommandLine [['-', '?']]).1.recv = false
    ∧ (parseCommandLine [['-', '?'], ['-', 'r']]).2 = [ParseEvent.usage] := by
  decide

/-- C8 amended: an unrecognized flag is reported to standard output and
otherwise ignored — the configuration is untouched and parsing continues
with the remaining arguments — and a help request prints the usage text
without aborting the run, but it does not short-circuit parsing: the
remaining arguments are still processed; in neither case does the resolver
fail. -/
theorem lenient_parse_continues (cfg : Config) (arg q : List Char)
    (rest : List (List Char))
    (hu : charAt arg 1 ≠ 'a' ∧ charAt arg 1 ≠ 'p' ∧ charAt arg 1 ≠ 'r'
      ∧ charAt arg 1 ≠ 't' ∧ charAt arg 1 ≠ '?')
    (hq : charAt q 1 = '?') :
    parseLoop cfg (arg :: rest) =
      ((parseLoop cfg rest).1,
        ParseEvent.unknownFlag (charAt arg 1) :: (parseLoop cfg rest).2)
    ∧ parseLoop cfg (q :: rest) =
      ((parseLoop cfg rest).1, ParseEvent.usage :: (parseLoop cfg rest).2) := by
  obtain ⟨h1, h2, h3, h4, h5⟩ := hu
  constructor
  · rw [parseLoop_cons, if_neg h1, if_neg h2, if_neg h3, if_neg h4, if_neg h5]
  · rw [parseLoop_cons, hq]
    simp

/-- Witness for the amended C8: the unknown flag -x is reported and skipped
and -? emits the usage event, in both cases leaving the configuration to
the rest of the parse. -/
theorem lenient_parse_continues_witness :
    parseLoop defaultConfig [['-', 'x']] =
      ((parseLoop defaultConfig []).1,
        ParseEvent.unknownFlag (charAt ['-', 'x'] 1) :: (parseLoop defaultConfig []).2)
    ∧ parseLoop defaultConfig [['-', '?']] =
      ((parseLoop defaultConfig []).1,
        ParseEvent.usage :: (parseLoop defaultConfig []).2) :=
  lenient_parse_continues defaultConfig ['-', 'x'] ['-', '?'] [] (by decide) (by decide)

/-! ## C9 -/

/-- The broadcaster loop, whenever it makes the process exit, exits with
status 1; it has no normal-return outcome. -/
theorem runBroadcast_exit_code (dst : SockAddrIn) :
    ∀ (env : List Bool) (c : Nat) (k : Nat),
      (runBroadcast dst c env).2 = some k → k = 1 := by
  intro env
  induction env with
  | nil => intro c k h; simp [runBroadcast] at h
  | cons ok rest ih =>
    intro c k h
    cases ok with
    | true =>
      simp [runBroadcast] at h
      exact ih _ _ h
    | false =>
      simp [runBroadcast] at h
      omega

/-- The receiver loop, whenever it makes the process exit, exits with
status 1; it has no normal-return outcome. -/
theorem runReceive_exit_code :
    ∀ (env : List RecvOutcome) (buf : List Nat) (k : Nat),
      (runReceive buf env).2 = some k → k = 1 := by
  intro env
  induction env with
  | nil => intro buf k h; simp [runReceive] at h
  | cons o rest ih =>
    intro buf k h
    cases o with
    | packet d =>
      simp [runReceive] at h
      exact ih _ _ h
    | failure er =>
      simp [runReceive] at h
      omega

/-- The loop dispatch of main exposes only exit code 1. -/
theorem dispatch_exit_code (cfg : Config) (benv : List Bool)
    (renv : List RecvOutcome) (k : Nat)
    (h : (if cfg.recv then (receiveMain renv).2 else (broadcastMain cfg benv).2) =
      some k) : k = 1 := by
  by_cases hr : cfg.recv
  · rw [if_pos hr] at h
    exact runReceive_exit_code renv [0, 0, 0, 0] k h
  · rw [if_neg hr] at h
    exact runBroadcast_exit_code (mkDest cfg) benv 0 k h

/-- C9: once a loop has been entered, any exit the process performs carries
status 1 — neither loop can return normally, so the exit-status-0 path
after the loop dispatch is unreachable, and over the whole run of main the
process never exits with status 0. -/
theorem loops_never_exit_zero (args : List (List Char)) (e : SysEnv)
    (benv : List Bool) (renv : List RecvOutcome) :
    ((mainModel args e benv renv).loopEntered = true →
      ∀ k, (mainModel args e benv renv).exit = some k → k = 1)
    ∧ (mainModel args e benv renv).exit ≠ some 0 := by
  unfold mainModel
  split_ifs with h1 h2 h3 h4 h5
  · simp
  · simp
  · simp
  · simp
  · simp
  · constructor
    · intro _ k hk
      exact dispatch_exit_code _ benv renv k (by simpa using hk)
    · intro hk
      have h0 := dispatch_exit_code _ benv renv 0 (by simpa using hk)
      omega

/-- Witness for C9: with provisioning succeeding and the first send
failing, the loop is entered and the only exit the model can show has
status 1. -/
theorem loops_never_exit_zero_witness : (1 : Nat) = 1 :=
  (loops_never_exit_zero [] ⟨0, 0, 0, 0, 0, 0⟩ [false] []).1 (by decide) 1 (by decide)

/-! ## C10 -/

/-- C10: the argument loop classifies an argument solely by its character
at index 1 and its remainder from index 2, never examining the leading
character: two arguments agreeing from index 1 onward are processed
identically, the argument xr sets receiver mode exactly as -r does, the
argument xp123 sets port 123 exactly as -p123 does, and a one-character
argument — whose index-1 character is the NUL terminator — is reported as
an unknown flag. -/
theorem classification_by_index_one (a b : List Char) (cfg : Config)
    (rest : List (List Char)) (h1 : charAt a 1 = charAt b 1)
    (h2 : a.drop 2 = b.drop 2) :
    parseLoop cfg (a :: rest) = parseLoop cfg (b :: rest)
    ∧ (parseCommandLine [['x', 'r']]).1.recv = true
    ∧ (parseCommandLine [['x', 'r']]).1 = (parseCommandLine [['-', 'r']]).1
    ∧ (parseCommandLine [['x', 'p', '1', '2', '3']]).1.port = 123
    ∧ (parseCommandLine [['x', 'p', '1', '2', '3']]).1.port =
        (parseCommandLine [['-', 'p', '1', '2', '3']]).1.port
    ∧ (parseCommandLine [['x']]).2 = [ParseEvent.unknownFlag (Char.ofNat 0)] := by
  refine ⟨?_, by decide, by decide, by decide, by decide, by decide⟩
  rw [parseLoop_cons, parseLoop_cons, h1, h2]

/-- Witness for C10: xr is parsed exactly as -r. -/
theorem classification_by_index_one_witness :
    parseLoop defaultConfig [['x', 'r']] = parseLoop defaultConfig [['-', 'r']] :=
  (classification_by_index_one ['x', 'r'] ['-', 'r'] defaultConfig []
    (by decide) (by decide)).1
